import Mathlib

/-!
# The EBS volume lifecycle controller of `core/aws_volume.go`

A shallow embedding of `AwsVolume` (discovery, Provision, Delete, NeedsResize,
Resize) over an abstract EC2 client, followed by theorems about it.

Conventions of the embedding.

* A Go pointer field (`*string`, `*int64`) is an `Option`; dereferencing `nil`
  aborts the run (`Outcome.aborted`), as does an explicit Go `panic`.
* A Go `error` result is an `Option AwsError` (`none` is `nil`); a Go
  `(value, error)` result of the SDK is an `Except AwsError value`: the code
  never looks at the value when the error is non-nil.
* The SDK client `m.core.EC2` is a record of state-passing functions over an
  arbitrary provider state `σ`. Every SDK call made by the controller is
  appended, with its input, to `Sys.calls`.
* The receiver's only mutable field, `awsVol`, lives in `Sys` next to the
  provider state; the immutable fields are the record `AwsVolume`.
* `log.Printf` appends the formatted line to `Sys.log`.
-/

namespace Supergiant

/-! ## SDK data types (`aws-sdk-go/service/ec2`) -/

/-- An error value returned by an SDK call; `message` is what `Error()` returns. -/
structure AwsError where
  message : String
deriving DecidableEq, Repr

/-- The record `ec2.Volume`, with the fields the controller reads. -/
structure Volume where
  VolumeId : Option String
  Size : Option Int
  State : Option String
deriving DecidableEq, Repr

/-- The record `ec2.Snapshot`. -/
structure Snapshot where
  SnapshotId : Option String
  Description : Option String
deriving DecidableEq, Repr

/-- The record `ec2.Filter`: a filter name and its `[]*string` values. -/
structure Filter where
  Name : String
  Values : List (Option String)
deriving DecidableEq, Repr

/-- The record `ec2.Tag`. -/
structure Tag where
  Key : String
  Value : String
deriving DecidableEq, Repr

/-- The record `ec2.DescribeVolumesInput`. -/
structure DescribeVolumesInput where
  Filters : List Filter
deriving DecidableEq, Repr

/-- The record `ec2.CreateVolumeInput`. -/
structure CreateVolumeInput where
  AvailabilityZone : String
  VolumeType : String
  Size : Int
  SnapshotId : Option String
deriving DecidableEq, Repr

/-- The record `ec2.CreateTagsInput`. -/
structure CreateTagsInput where
  Resources : List String
  Tags : List Tag
deriving DecidableEq, Repr

/-- The record `ec2.DeleteVolumeInput`. -/
structure DeleteVolumeInput where
  VolumeId : Option String
deriving DecidableEq, Repr

/-- The record `ec2.CreateSnapshotInput`. -/
structure CreateSnapshotInput where
  Description : String
  VolumeId : Option String
deriving DecidableEq, Repr

/-- The record `ec2.DescribeSnapshotsInput`. -/
structure DescribeSnapshotsInput where
  SnapshotIds : List (Option String)
deriving DecidableEq, Repr

/-- The record `ec2.DeleteSnapshotInput`. -/
structure DeleteSnapshotInput where
  SnapshotId : Option String
deriving DecidableEq, Repr

/-- One SDK call as the provider observes it: the operation and its input. -/
inductive Call where
  | DescribeVolumes (input : DescribeVolumesInput)
  | CreateVolume (input : CreateVolumeInput)
  | CreateTags (input : CreateTagsInput)
  | WaitUntilVolumeAvailable (input : DescribeVolumesInput)
  | DeleteVolume (input : DeleteVolumeInput)
  | CreateSnapshot (input : CreateSnapshotInput)
  | WaitUntilSnapshotCompleted (input : DescribeSnapshotsInput)
  | DeleteSnapshot (input : DeleteSnapshotInput)
deriving DecidableEq, Repr

/-- The part of the SDK client `m.core.EC2` that the controller calls. Each
operation takes its input and the provider state and returns its result and the
new provider state. A call that returns no error returns a non-nil record. -/
structure EC2 (σ : Type) where
  DescribeVolumes : DescribeVolumesInput → σ → Except AwsError (List Volume) × σ
  CreateVolume : CreateVolumeInput → σ → Except AwsError Volume × σ
  CreateTags : CreateTagsInput → σ → Option AwsError × σ
  WaitUntilVolumeAvailable : DescribeVolumesInput → σ → Option AwsError × σ
  DeleteVolume : DeleteVolumeInput → σ → Option AwsError × σ
  CreateSnapshot : CreateSnapshotInput → σ → Except AwsError Snapshot × σ
  WaitUntilSnapshotCompleted : DescribeSnapshotsInput → σ → Option AwsError × σ
  DeleteSnapshot : DeleteSnapshotInput → σ → Option AwsError × σ

/-! ## Repository types used by the controller -/

/-- The record `Core`: the EC2 client. The package constant `AwsAZ`, which is
declared outside `aws_volume.go`, is carried here as a parameter. -/
structure Core (σ : Type) where
  EC2 : EC2 σ
  AwsAZ : String

/-- The record `types.VolumeBlueprint`: `Name *string`, `Type string`
(here `Type_`, the word being reserved), `Size int`. -/
structure VolumeBlueprint where
  Name : Option String
  Type_ : String
  Size : Int
deriving DecidableEq, Repr

/-- The record `InstanceResource`, as far as the controller reads it: `BaseName`,
and the value of `Release().Timestamp` (a `*string`), whose accessor is declared
outside `aws_volume.go` and is carried here as a parameter. -/
structure InstanceResource where
  BaseName : String
  ReleaseTimestamp : Option String
deriving DecidableEq, Repr

/-- The immutable fields of the Go struct `AwsVolume`. -/
structure AwsVolume (σ : Type) where
  core : Core σ
  Blueprint : VolumeBlueprint
  Instance : InstanceResource

/-- The mutable world of one controller: its memoized handle `awsVol`, the
provider state, the SDK calls issued so far and the lines logged so far. -/
structure Sys (σ : Type) where
  awsVol : Option Volume
  ec2 : σ
  calls : List Call
  log : List String
deriving DecidableEq, Repr

/-! ## Execution with aborting runs -/

/-- The result of running a Go function: it returns a value or the run aborts. -/
inductive Outcome (α : Type) where
  | ret (a : α)
  | aborted (msg : String)
deriving DecidableEq, Repr

/-- A Go function acting on the world of one controller. -/
def Exec (σ α : Type) : Type := Sys σ → Outcome α × Sys σ

/-- Return a value without touching the world. -/
def Exec.pure {σ α : Type} (a : α) : Exec σ α := fun s => (Outcome.ret a, s)

/-- Sequencing: an aborted run skips everything after it. -/
def Exec.bind {σ α β : Type} (x : Exec σ α) (f : α → Exec σ β) : Exec σ β := fun s =>
  match x s with
  | (Outcome.ret a, s1) => f a s1
  | (Outcome.aborted msg, s1) => (Outcome.aborted msg, s1)

instance (σ : Type) : Monad (Exec σ) where
  pure := Exec.pure
  bind := Exec.bind

/-- Go `panic`. -/
def goPanic {σ α : Type} (msg : String) : Exec σ α := fun s => (Outcome.aborted msg, s)

/-- Dereference of a Go pointer: `nil` aborts the run. -/
def deref {σ α : Type} (p : Option α) : Exec σ α :=
  match p with
  | some a => Exec.pure a
  | none => goPanic "invalid memory address or nil pointer dereference"

/-- The call `log.Printf`, already formatted. -/
def logPrintf {σ : Type} (line : String) : Exec σ Unit := fun s =>
  (Outcome.ret (), { s with log := s.log ++ [line] })

/-- Read the field `m.awsVol`. -/
def getAwsVol {σ : Type} : Exec σ (Option Volume) := fun s => (Outcome.ret s.awsVol, s)

/-- Assign the field `m.awsVol`. -/
def setAwsVol {σ : Type} (v : Option Volume) : Exec σ Unit := fun s =>
  (Outcome.ret (), { s with awsVol := v })

/-- Issue one SDK call: record it and thread the provider state through it. -/
def invoke {σ ρ : Type} (c : Call) (f : σ → ρ × σ) : Exec σ ρ := fun s =>
  (Outcome.ret (f s.ec2).1, { s with ec2 := (f s.ec2).2, calls := s.calls ++ [c] })

/-- The conversion `int64(x)` of a Go integer: the value wrapped to 64 bits. -/
def int64 (x : Int) : Int := (x + 2 ^ 63) % 2 ^ 64 - 2 ^ 63

/-! ## The controller (`core/aws_volume.go`) -/

/-- The method `name`: `fmt.Sprintf("%s-%s", m.Instance.BaseName, *m.Blueprint.Name)`. -/
def AwsVolume.name {σ : Type} (m : AwsVolume σ) : Exec σ String := do
  let n ← deref m.Blueprint.Name
  pure (m.Instance.BaseName ++ "-" ++ n)

/-- The input that `loadAwsVolume` builds: the `tag:Name` filter and the three
states that are not a deleting state. -/
def discoveryInput (name : String) : DescribeVolumesInput :=
  { Filters :=
      [ { Name := "tag:Name", Values := [some name] },
        { Name := "status", Values := [some "creating", some "available", some "in-use"] } ] }

/-- The method `loadAwsVolume`. -/
def AwsVolume.loadAwsVolume {σ : Type} (m : AwsVolume σ) : Exec σ Unit := do
  let n ← m.name
  let input := discoveryInput n
  let resp ← invoke (Call.DescribeVolumes input) (m.core.EC2.DescribeVolumes input)
  match resp with
  | Except.error err => goPanic err.message
  | Except.ok volumes =>
    match volumes with
    | v :: _ => setAwsVol (some v)
    | [] => pure ()

/-- The method `awsVolume`: simple memoization of the volume record. -/
def AwsVolume.awsVolume {σ : Type} (m : AwsVolume σ) : Exec σ (Option Volume) := do
  let cur ← getAwsVol
  match cur with
  | none =>
    m.loadAwsVolume
    getAwsVol
  | some _ => getAwsVol

/-- The method `id`. -/
def AwsVolume.id {σ : Type} (m : AwsVolume σ) : Exec σ (Option String) := do
  let vol ← m.awsVolume
  match vol with
  | none => goPanic "Trying to access ID of nil volume"
  | some v => pure v.VolumeId

/-- The method `WaitForAvailable`. -/
def AwsVolume.WaitForAvailable {σ : Type} (m : AwsVolume σ) : Exec σ (Option AwsError) := do
  let vid ← m.id
  let input : DescribeVolumesInput := { Filters := [ { Name := "volume-id", Values := [vid] } ] }
  let n ← m.name
  logPrintf ("Waiting for EBS volume " ++ n ++ " to be available")
  invoke (Call.WaitUntilVolumeAvailable input) (m.core.EC2.WaitUntilVolumeAvailable input)

/-- The method `createAwsVolume`. -/
def AwsVolume.createAwsVolume {σ : Type} (m : AwsVolume σ) (snapshotID : Option String) :
    Exec σ (Option AwsError) := do
  let volInput : CreateVolumeInput :=
    { AvailabilityZone := m.core.AwsAZ, VolumeType := m.Blueprint.Type_,
      Size := int64 m.Blueprint.Size, SnapshotId := snapshotID }
  let created ← invoke (Call.CreateVolume volInput) (m.core.EC2.CreateVolume volInput)
  match created with
  | Except.error err => pure (some err)
  | Except.ok awsVol =>
    let vid ← deref awsVol.VolumeId
    let n ← m.name
    let tagsInput : CreateTagsInput :=
      { Resources := [vid], Tags := [ { Key := "Name", Value := n } ] }
    let tagErr ← invoke (Call.CreateTags tagsInput) (m.core.EC2.CreateTags tagsInput)
    match tagErr with
    | some err => pure (some err)
    | none =>
      setAwsVol (some awsVol)
      m.WaitForAvailable

/-- The method `createSnapshot`; the pair is Go's `(*ec2.Snapshot, error)`. -/
def AwsVolume.createSnapshot {σ : Type} (m : AwsVolume σ) :
    Exec σ (Option Snapshot × Option AwsError) := do
  let n ← m.name
  let ts ← deref m.Instance.ReleaseTimestamp
  let vid ← m.id
  let input : CreateSnapshotInput := { Description := n ++ "-" ++ ts, VolumeId := vid }
  let created ← invoke (Call.CreateSnapshot input) (m.core.EC2.CreateSnapshot input)
  match created with
  | Except.error err => pure (none, some err)
  | Except.ok snapshot =>
    let waitInput : DescribeSnapshotsInput := { SnapshotIds := [snapshot.SnapshotId] }
    let waitErr ← invoke (Call.WaitUntilSnapshotCompleted waitInput)
      (m.core.EC2.WaitUntilSnapshotCompleted waitInput)
    match waitErr with
    | some err => pure (some snapshot, some err)
    | none => pure (some snapshot, none)

/-- The method `deleteSnapshot`. -/
def AwsVolume.deleteSnapshot {σ : Type} (m : AwsVolume σ) (snapshot : Option Snapshot) :
    Exec σ (Option AwsError) := do
  let snap ← deref snapshot
  let input : DeleteSnapshotInput := { SnapshotId := snap.SnapshotId }
  invoke (Call.DeleteSnapshot input) (m.core.EC2.DeleteSnapshot input)

/-- The method `Provision`. -/
def AwsVolume.Provision {σ : Type} (m : AwsVolume σ) : Exec σ (Option AwsError) := do
  let vol ← m.awsVolume
  match vol with
  | none =>
    let n ← m.name
    logPrintf ("Creating EBS volume " ++ n)
    m.createAwsVolume none
  | some _ => pure none

/-- The method `Delete`. -/
def AwsVolume.Delete {σ : Type} (m : AwsVolume σ) : Exec σ (Option AwsError) := do
  let vol ← m.awsVolume
  match vol with
  | none => pure none
  | some _ =>
    let waitErr ← m.WaitForAvailable
    match waitErr with
    | some err => pure (some err)
    | none =>
      let vid ← m.id
      let input : DeleteVolumeInput := { VolumeId := vid }
      let n ← m.name
      logPrintf ("Deleting EBS volume " ++ n)
      let delErr ← invoke (Call.DeleteVolume input) (m.core.EC2.DeleteVolume input)
      match delErr with
      | some err => pure (some err)
      | none =>
        setAwsVol none
        pure none

/-- The method `NeedsResize`. -/
def AwsVolume.NeedsResize {σ : Type} (m : AwsVolume σ) : Exec σ Bool := do
  let vol ← m.awsVolume
  match vol with
  | none => pure false
  | some _ =>
    let vol2 ← m.awsVolume
    let v ← deref vol2
    let size ← deref v.Size
    pure (decide (int64 m.Blueprint.Size ≠ size))

/-- The method `Resize`. -/
def AwsVolume.Resize {σ : Type} (m : AwsVolume σ) : Exec σ (Option AwsError) := do
  let n ← m.name
  logPrintf ("Resizing EBS volume " ++ n)
  let (snapshot, err) ← m.createSnapshot
  match err with
  | some e => pure (some e)
  | none =>
    let delErr ← m.Delete
    match delErr with
    | some e => pure (some e)
    | none =>
      let snap ← deref snapshot
      let createErr ← m.createAwsVolume snap.SnapshotId
      match createErr with
      | some e => pure (some e)
      | none =>
        let cleanupErr ← m.deleteSnapshot snapshot
        match cleanupErr with
        | some e =>
          let sid ← deref snap.SnapshotId
          logPrintf ("Error deleting snapshot " ++ sid ++ ": " ++ e.message)
          pure none
        | none => pure none


/-! ## Observing the provider calls of a run -/

/-- The eight SDK operations. -/
inductive Op where
  | DescribeVolumes
  | CreateVolume
  | CreateTags
  | WaitUntilVolumeAvailable
  | DeleteVolume
  | CreateSnapshot
  | WaitUntilSnapshotCompleted
  | DeleteSnapshot
deriving DecidableEq, Repr

/-- The operation of a recorded call. -/
def Call.op : Call → Op
  | Call.DescribeVolumes _ => Op.DescribeVolumes
  | Call.CreateVolume _ => Op.CreateVolume
  | Call.CreateTags _ => Op.CreateTags
  | Call.WaitUntilVolumeAvailable _ => Op.WaitUntilVolumeAvailable
  | Call.DeleteVolume _ => Op.DeleteVolume
  | Call.CreateSnapshot _ => Op.CreateSnapshot
  | Call.WaitUntilSnapshotCompleted _ => Op.WaitUntilSnapshotCompleted
  | Call.DeleteSnapshot _ => Op.DeleteSnapshot

/-- Whatever the world it starts in, `x` only appends calls to the record, and
every call it appends satisfies `P`. -/
def Emits {σ α : Type} (P : Call → Prop) (x : Exec σ α) : Prop :=
  ∀ s : Sys σ, ∃ new : List Call, (x s).2.calls = s.calls ++ new ∧ ∀ c ∈ new, P c

/-! ## A stateless provider for concrete runs -/

/-- A provider without state that answers every call of an operation with one
fixed response. -/
def stubEC2 (describe : Except AwsError (List Volume)) (create : Except AwsError Volume)
    (tags waitVol delVol : Option AwsError) (snap : Except AwsError Snapshot)
    (waitSnap delSnap : Option AwsError) : EC2 Unit :=
  { DescribeVolumes := fun _ u => (describe, u)
    CreateVolume := fun _ u => (create, u)
    CreateTags := fun _ u => (tags, u)
    WaitUntilVolumeAvailable := fun _ u => (waitVol, u)
    DeleteVolume := fun _ u => (delVol, u)
    CreateSnapshot := fun _ u => (snap, u)
    WaitUntilSnapshotCompleted := fun _ u => (waitSnap, u)
    DeleteSnapshot := fun _ u => (delSnap, u) }

/-- An existing 10 GB volume. -/
def volOld : Volume := { VolumeId := some "vol-old", Size := some 10, State := some "available" }

/-- The 20 GB volume that the provider creates. -/
def volNew : Volume := { VolumeId := some "vol-new", Size := some 20, State := some "creating" }

/-- The snapshot that the provider creates. -/
def snapOne : Snapshot := { SnapshotId := some "snap-1", Description := some "node1-data-t0" }

/-- A provider error. -/
def boom : AwsError := { message := "RequestLimitExceeded" }

/-- The controller of blueprint `data` on instance `node1` (identity `node1-data`). -/
def demo (api : EC2 Unit) (size : Int) : AwsVolume Unit :=
  { core := { EC2 := api, AwsAZ := "us-east-1c" }
    Blueprint := { Name := some "data", Type_ := "gp2", Size := size }
    Instance := { BaseName := "node1", ReleaseTimestamp := some "t0" } }

/-- A provider that finds no volume and on which every call succeeds. -/
def okEC2 : EC2 Unit :=
  stubEC2 (Except.ok []) (Except.ok volNew) none none none (Except.ok snapOne) none none

/-- A provider on which discovery finds the 10 GB volume and every call succeeds. -/
def foundEC2 : EC2 Unit :=
  stubEC2 (Except.ok [volOld]) (Except.ok volNew) none none none (Except.ok snapOne) none none

/-- A world with an empty handle and no call issued. -/
def sys0 : Sys Unit := { awsVol := none, ec2 := (), calls := [], log := [] }

/-- A world whose handle holds the existing 10 GB volume. -/
def sysOld : Sys Unit := { awsVol := some volOld, ec2 := (), calls := [], log := [] }

/-- A provider on which `DeleteVolume` fails and every other call succeeds. -/
def deleteFailEC2 : EC2 Unit :=
  stubEC2 (Except.ok [volOld]) (Except.ok volNew) none none (some boom) (Except.ok snapOne)
    none none

/-- The controller `m` on a provider that differs from the one of `m` only in
how it answers `DeleteSnapshot`. -/
def withDeleteSnapshot {σ : Type} (m : AwsVolume σ)
    (f : DeleteSnapshotInput → σ → Option AwsError × σ) : AwsVolume σ :=
  { m with core := { m.core with EC2 := { m.core.EC2 with DeleteSnapshot := f } } }

/-- A provider on which `CreateTags` fails with `boom` after `CreateVolume` succeeded. -/
def tagFailEC2 : EC2 Unit :=
  stubEC2 (Except.ok []) (Except.ok volNew) (some boom) none none (Except.ok snapOne) none none

/-- A provider on which `CreateVolume` fails with the same error `boom`. -/
def createFailEC2 : EC2 Unit :=
  stubEC2 (Except.ok []) (Except.error boom) none none none (Except.ok snapOne) none none

/-! ## Running the primitives -/

theorem run_bind {σ α β : Type} (x : Exec σ α) (f : α → Exec σ β) (s : Sys σ) :
    (x >>= f) s = match x s with
      | (Outcome.ret a, s1) => f a s1
      | (Outcome.aborted msg, s1) => (Outcome.aborted msg, s1) := rfl

theorem run_pure {σ α : Type} (a : α) (s : Sys σ) :
    (pure a : Exec σ α) s = (Outcome.ret a, s) := rfl

theorem emits_pure {σ α : Type} (P : Call → Prop) (a : α) : Emits P (pure a : Exec σ α) :=
  fun s => ⟨[], by simp [run_pure], by simp⟩

theorem emits_goPanic {σ α : Type} (P : Call → Prop) (msg : String) :
    Emits P (goPanic msg : Exec σ α) :=
  fun s => ⟨[], by simp [goPanic], by simp⟩

theorem emits_deref {σ α : Type} (P : Call → Prop) (p : Option α) :
    Emits P (deref p : Exec σ α) := by
  cases p
  · exact emits_goPanic P _
  · exact emits_pure P _

theorem emits_logPrintf {σ : Type} (P : Call → Prop) (line : String) :
    Emits P (logPrintf line : Exec σ Unit) :=
  fun s => ⟨[], by simp [logPrintf], by simp⟩

theorem emits_getAwsVol {σ : Type} (P : Call → Prop) : Emits P (getAwsVol : Exec σ _) :=
  fun s => ⟨[], by simp [getAwsVol], by simp⟩

theorem emits_setAwsVol {σ : Type} (P : Call → Prop) (v : Option Volume) :
    Emits P (setAwsVol v : Exec σ Unit) :=
  fun s => ⟨[], by simp [setAwsVol], by simp⟩

theorem emits_invoke {σ ρ : Type} (P : Call → Prop) (c : Call) (f : σ → ρ × σ) (h : P c) :
    Emits P (invoke c f) :=
  fun s => ⟨[c], by simp [invoke], by simpa using h⟩

theorem emits_bind {σ α β : Type} (P : Call → Prop) (x : Exec σ α) (f : α → Exec σ β)
    (hx : Emits P x) (hf : ∀ a, Emits P (f a)) : Emits P (x >>= f) := by
  intro s
  obtain ⟨n1, h1, p1⟩ := hx s
  rw [run_bind]
  rcases hxs : x s with ⟨o, s1⟩
  rw [hxs] at h1
  cases o with
  | ret a =>
    obtain ⟨n2, h2, p2⟩ := hf a s1
    refine ⟨n1 ++ n2, ?_, ?_⟩
    · simp only [h2]
      simp at h1
      rw [h1, List.append_assoc]
    · intro c hc
      rcases List.mem_append.mp hc with h | h
      · exact p1 c h
      · exact p2 c h
  | aborted msg => exact ⟨n1, h1, p1⟩

theorem emits_name {σ : Type} (P : Call → Prop) (m : AwsVolume σ) : Emits P m.name := by
  unfold AwsVolume.name
  exact emits_bind P _ _ (emits_deref P _) (fun _ => emits_pure P _)

theorem emits_loadAwsVolume {σ : Type} (P : Call → Prop) (m : AwsVolume σ)
    (hP : ∀ i, P (Call.DescribeVolumes i)) : Emits P m.loadAwsVolume := by
  unfold AwsVolume.loadAwsVolume
  refine emits_bind P _ _ (emits_name P m) (fun n => ?_)
  refine emits_bind P _ _ (emits_invoke P _ _ (hP _)) (fun resp => ?_)
  rcases resp with err | vols
  · exact emits_goPanic P _
  · cases vols
    · exact emits_pure P _
    · exact emits_setAwsVol P _

theorem emits_awsVolume {σ : Type} (P : Call → Prop) (m : AwsVolume σ)
    (hP : ∀ i, P (Call.DescribeVolumes i)) : Emits P m.awsVolume := by
  unfold AwsVolume.awsVolume
  refine emits_bind P _ _ (emits_getAwsVol P) (fun cur => ?_)
  cases cur
  · exact emits_bind P _ _ (emits_loadAwsVolume P m hP) (fun _ => emits_getAwsVol P)
  · exact emits_getAwsVol P

theorem emits_id {σ : Type} (P : Call → Prop) (m : AwsVolume σ)
    (hP : ∀ i, P (Call.DescribeVolumes i)) : Emits P m.id := by
  unfold AwsVolume.id
  refine emits_bind P _ _ (emits_awsVolume P m hP) (fun vol => ?_)
  cases vol
  · exact emits_goPanic P _
  · exact emits_pure P _

theorem emits_WaitForAvailable {σ : Type} (P : Call → Prop) (m : AwsVolume σ)
    (hP : ∀ i, P (Call.DescribeVolumes i)) (hW : ∀ i, P (Call.WaitUntilVolumeAvailable i)) :
    Emits P m.WaitForAvailable := by
  unfold AwsVolume.WaitForAvailable
  refine emits_bind P _ _ (emits_id P m hP) (fun vid => ?_)
  refine emits_bind P _ _ (emits_name P m) (fun n => ?_)
  exact emits_bind P _ _ (emits_logPrintf P _) (fun _ => emits_invoke P _ _ (hW _))

theorem emits_Delete {σ : Type} (P : Call → Prop) (m : AwsVolume σ)
    (hP : ∀ i, P (Call.DescribeVolumes i)) (hW : ∀ i, P (Call.WaitUntilVolumeAvailable i))
    (hD : ∀ i, P (Call.DeleteVolume i)) : Emits P m.Delete := by
  unfold AwsVolume.Delete
  refine emits_bind P _ _ (emits_awsVolume P m hP) (fun vol => ?_)
  cases vol
  · exact emits_pure P _
  · refine emits_bind P _ _ (emits_WaitForAvailable P m hP hW) (fun waitErr => ?_)
    cases waitErr
    · refine emits_bind P _ _ (emits_id P m hP) (fun vid => ?_)
      refine emits_bind P _ _ (emits_name P m) (fun n => ?_)
      refine emits_bind P _ _ (emits_logPrintf P _) (fun _ => ?_)
      refine emits_bind P _ _ (emits_invoke P _ _ (hD _)) (fun delErr => ?_)
      cases delErr
      · exact emits_bind P _ _ (emits_setAwsVol P _) (fun _ => emits_pure P _)
      · exact emits_pure P _
    · exact emits_pure P _

theorem emits_createSnapshot {σ : Type} (P : Call → Prop) (m : AwsVolume σ)
    (hP : ∀ i, P (Call.DescribeVolumes i)) (hC : ∀ i, P (Call.CreateSnapshot i))
    (hW : ∀ i, P (Call.WaitUntilSnapshotCompleted i)) : Emits P m.createSnapshot := by
  unfold AwsVolume.createSnapshot
  refine emits_bind P _ _ (emits_name P m) (fun n => ?_)
  refine emits_bind P _ _ (emits_deref P _) (fun ts => ?_)
  refine emits_bind P _ _ (emits_id P m hP) (fun vid => ?_)
  refine emits_bind P _ _ (emits_invoke P _ _ (hC _)) (fun created => ?_)
  rcases created with err | snapshot
  · exact emits_pure P _
  · refine emits_bind P _ _ (emits_invoke P _ _ (hW _)) (fun waitErr => ?_)
    cases waitErr
    · exact emits_pure P _
    · exact emits_pure P _



/-! ## Facts shared by the proofs -/

theorem name_run {σ : Type} (m : AwsVolume σ) (s : Sys σ) (n : String)
    (hname : m.Blueprint.Name = some n) :
    m.name s = (Outcome.ret (m.Instance.BaseName ++ "-" ++ n), s) := by
  simp [AwsVolume.name, run_bind, run_pure, deref, Exec.pure, hname]

theorem awsVolume_cached {σ : Type} (m : AwsVolume σ) (s : Sys σ) (v : Volume)
    (h : s.awsVol = some v) : m.awsVolume s = (Outcome.ret (some v), s) := by
  simp [AwsVolume.awsVolume, run_bind, getAwsVol, h]

theorem awsVolume_post {σ : Type} (m : AwsVolume σ) (s s1 : Sys σ) (r : Option Volume)
    (h : m.awsVolume s = (Outcome.ret r, s1)) : s1.awsVol = r := by
  unfold AwsVolume.awsVolume at h
  simp only [run_bind, getAwsVol] at h
  cases hv : s.awsVol with
  | some v =>
    simp only [hv] at h
    injection h with h1 h2
    injection h1 with h1
    rw [← h2, ← h1, hv]
  | none =>
    simp only [hv, run_bind] at h
    split at h
    · injection h with h1 h2
      injection h1 with h1
      rw [← h2, ← h1]
    · injection h with h1 h2
      cases h1

theorem id_cached {σ : Type} (m : AwsVolume σ) (s : Sys σ) (v : Volume)
    (h : s.awsVol = some v) : m.id s = (Outcome.ret v.VolumeId, s) := by
  simp [AwsVolume.id, run_bind, run_pure, awsVolume_cached m s v h]

/-! ## The claims -/

/-- C1. `NeedsResize` returns true exactly when discovery yields a volume and the
blueprint size, converted to a 64-bit integer, differs from that volume's
observed size; when discovery yields no volume it returns false. Here `r` is
what discovery (`awsVolume`) yields in the world `s`, and an observed volume
carries a size. -/
theorem needsResize_iff {σ : Type} (m : AwsVolume σ) (s s1 : Sys σ) (r : Option Volume)
    (hdisc : m.awsVolume s = (Outcome.ret r, s1))
    (hsize : ∀ v, r = some v → v.Size ≠ none) :
    (∃ b, m.NeedsResize s = (Outcome.ret b, s1) ∧
      (b = true ↔ ∃ v S, r = some v ∧ v.Size = some S ∧ int64 m.Blueprint.Size ≠ S)) ∧
    (r = none → m.NeedsResize s = (Outcome.ret false, s1)) := by
  have hpost := awsVolume_post m s s1 r hdisc
  cases r with
  | none =>
    have h : m.NeedsResize s = (Outcome.ret false, s1) := by
      simp [AwsVolume.NeedsResize, run_bind, run_pure, hdisc]
    exact ⟨⟨false, h, by simp⟩, fun _ => h⟩
  | some v =>
    cases hS : v.Size with
    | none => exact absurd hS (hsize v rfl)
    | some S =>
      refine ⟨⟨decide (int64 m.Blueprint.Size ≠ S), ?_, ?_⟩, fun h => by cases h⟩
      · simp [AwsVolume.NeedsResize, run_bind, run_pure, hdisc, awsVolume_cached m s1 v hpost,
          deref, Exec.pure, hS]
      · simp [hS]

/-- C1, at a concrete input: discovery finds the 10 GB volume, the blueprint asks for 20. -/
theorem needsResize_iff_witness :
    (∃ b, (demo foundEC2 20).NeedsResize sys0 =
        (Outcome.ret b, ((demo foundEC2 20).awsVolume sys0).2) ∧
      (b = true ↔ ∃ v S, some volOld = some v ∧ v.Size = some S ∧
        int64 (demo foundEC2 20).Blueprint.Size ≠ S)) ∧
    (some volOld = none → (demo foundEC2 20).NeedsResize sys0 =
        (Outcome.ret false, ((demo foundEC2 20).awsVolume sys0).2)) :=
  needsResize_iff (demo foundEC2 20) sys0 _ (some volOld) (by rfl)
    (by intro v hv; cases hv; decide)

/-- C3. On a controller with an empty handle, when the discovery query returns
no volume, `Delete` returns nil, the discovery `DescribeVolumes` query is the
only call it issues, and the handle is still empty (nothing is logged either). -/
theorem delete_absent_noop {σ : Type} (m : AwsVolume σ) (s : Sys σ) (n : String)
    (hname : m.Blueprint.Name = some n) (hempty : s.awsVol = none)
    (hdisc : (m.core.EC2.DescribeVolumes
      (discoveryInput (m.Instance.BaseName ++ "-" ++ n)) s.ec2).1 = Except.ok []) :
    ∃ s1, m.Delete s = (Outcome.ret none, s1) ∧ s1.awsVol = none ∧
      s1.calls = s.calls ++
        [Call.DescribeVolumes (discoveryInput (m.Instance.BaseName ++ "-" ++ n))] ∧
      s1.log = s.log := by
  refine ⟨{ s with
    ec2 := (m.core.EC2.DescribeVolumes
      (discoveryInput (m.Instance.BaseName ++ "-" ++ n)) s.ec2).2
    calls := s.calls ++
      [Call.DescribeVolumes (discoveryInput (m.Instance.BaseName ++ "-" ++ n))] }, ?_, hempty,
    rfl, rfl⟩
  simp [AwsVolume.Delete, AwsVolume.awsVolume, AwsVolume.loadAwsVolume, name_run m _ n hname,
    run_bind, run_pure, getAwsVol, invoke, hempty, hdisc]

/-- C3, at a concrete input: the provider that finds no volume. -/
theorem delete_absent_noop_witness :
    ∃ s1, (demo okEC2 20).Delete sys0 = (Outcome.ret none, s1) ∧ s1.awsVol = none ∧
      s1.calls = sys0.calls ++ [Call.DescribeVolumes (discoveryInput ("node1" ++ "-" ++ "data"))] ∧
      s1.log = sys0.log :=
  delete_absent_noop (demo okEC2 20) sys0 "data" rfl rfl rfl


theorem provision_cached {σ : Type} (m : AwsVolume σ) (s : Sys σ) (v : Volume)
    (h : s.awsVol = some v) : m.Provision s = (Outcome.ret none, s) := by
  simp [AwsVolume.Provision, run_bind, run_pure, awsVolume_cached m s v h]

/-- C2. On a controller with an empty handle, when discovery finds no volume and
the create, tag and wait-until-available calls succeed, `Provision` returns nil
twice in a row; the first run issues the discovery query, one `CreateVolume`, one
`CreateTags` and one wait, the second run changes nothing at all (no call, same
handle), so the provider has seen exactly one `CreateVolume`. -/
theorem provision_twice_creates_once {σ : Type} (m : AwsVolume σ) (s : Sys σ)
    (n vid : String) (v : Volume) (p1 p2 p3 p4 : σ)
    (hname : m.Blueprint.Name = some n) (hempty : s.awsVol = none)
    (hdisc : m.core.EC2.DescribeVolumes
      (discoveryInput (m.Instance.BaseName ++ "-" ++ n)) s.ec2 = (Except.ok [], p1))
    (hcreate : m.core.EC2.CreateVolume
      { AvailabilityZone := m.core.AwsAZ, VolumeType := m.Blueprint.Type_,
        Size := int64 m.Blueprint.Size, SnapshotId := none } p1 = (Except.ok v, p2))
    (hvid : v.VolumeId = some vid)
    (htag : m.core.EC2.CreateTags
      { Resources := [vid],
        Tags := [ { Key := "Name", Value := m.Instance.BaseName ++ "-" ++ n } ] } p2 = (none, p3))
    (hwait : m.core.EC2.WaitUntilVolumeAvailable
      { Filters := [ { Name := "volume-id", Values := [some vid] } ] } p3 = (none, p4)) :
    ∃ s1, m.Provision s = (Outcome.ret none, s1) ∧
      m.Provision s1 = (Outcome.ret none, s1) ∧
      s1.awsVol = some v ∧
      s1.calls = s.calls ++
        [ Call.DescribeVolumes (discoveryInput (m.Instance.BaseName ++ "-" ++ n)),
          Call.CreateVolume
            { AvailabilityZone := m.core.AwsAZ, VolumeType := m.Blueprint.Type_,
              Size := int64 m.Blueprint.Size, SnapshotId := none },
          Call.CreateTags
            { Resources := [vid],
              Tags := [ { Key := "Name", Value := m.Instance.BaseName ++ "-" ++ n } ] },
          Call.WaitUntilVolumeAvailable
            { Filters := [ { Name := "volume-id", Values := [some vid] } ] } ] ∧
      ((s1.calls.drop s.calls.length).filter (fun c => decide (c.op = Op.CreateVolume))).length
        = 1 := by
  have h1 : m.Provision s = (Outcome.ret none,
      { awsVol := some v, ec2 := p4,
        calls := s.calls ++
          [ Call.DescribeVolumes (discoveryInput (m.Instance.BaseName ++ "-" ++ n)),
            Call.CreateVolume
              { AvailabilityZone := m.core.AwsAZ, VolumeType := m.Blueprint.Type_,
                Size := int64 m.Blueprint.Size, SnapshotId := none },
            Call.CreateTags
              { Resources := [vid],
                Tags := [ { Key := "Name", Value := m.Instance.BaseName ++ "-" ++ n } ] },
            Call.WaitUntilVolumeAvailable
              { Filters := [ { Name := "volume-id", Values := [some vid] } ] } ],
        log := s.log ++ ["Creating EBS volume " ++ (m.Instance.BaseName ++ "-" ++ n),
          "Waiting for EBS volume " ++ (m.Instance.BaseName ++ "-" ++ n) ++ " to be available"] }) := by
    simp [AwsVolume.Provision, AwsVolume.awsVolume, AwsVolume.loadAwsVolume,
      AwsVolume.createAwsVolume, AwsVolume.WaitForAvailable, AwsVolume.id,
      name_run m _ n hname, run_bind, run_pure, getAwsVol, setAwsVol, invoke, logPrintf, deref,
      Exec.pure, hempty, hdisc, hcreate, hvid, htag, hwait]
  refine ⟨_, h1, ?_, rfl, rfl, ?_⟩
  · exact provision_cached m _ v rfl
  · simp [Call.op]

/-- C2, at a concrete input: the provider that finds no volume and creates `vol-new`. -/
theorem provision_twice_creates_once_witness :
    ∃ s1, (demo okEC2 20).Provision sys0 = (Outcome.ret none, s1) ∧
      (demo okEC2 20).Provision s1 = (Outcome.ret none, s1) ∧
      s1.awsVol = some volNew ∧
      s1.calls = sys0.calls ++
        [ Call.DescribeVolumes (discoveryInput ("node1" ++ "-" ++ "data")),
          Call.CreateVolume
            { AvailabilityZone := "us-east-1c", VolumeType := "gp2",
              Size := int64 20, SnapshotId := none },
          Call.CreateTags
            { Resources := ["vol-new"],
              Tags := [ { Key := "Name", Value := "node1" ++ "-" ++ "data" } ] },
          Call.WaitUntilVolumeAvailable
            { Filters := [ { Name := "volume-id", Values := [some "vol-new"] } ] } ] ∧
      ((s1.calls.drop sys0.calls.length).filter (fun c => decide (c.op = Op.CreateVolume))).length
        = 1 :=
  provision_twice_creates_once (demo okEC2 20) sys0 "data" "vol-new" volNew () () () ()
    rfl rfl rfl rfl rfl rfl rfl


theorem createSnapshot_success {σ : Type} (m : AwsVolume σ) (s s1 : Sys σ)
    (snapshot : Option Snapshot)
    (h : m.createSnapshot s = (Outcome.ret (snapshot, none), s1)) :
    ∃ snap i w, snapshot = some snap ∧
      s1.calls = (m.id s).2.calls ++ [Call.CreateSnapshot i, w] := by
  unfold AwsVolume.createSnapshot at h
  cases hN : m.Blueprint.Name with
  | none => simp [AwsVolume.name, run_bind, deref, goPanic, hN] at h
  | some n =>
    cases hT : m.Instance.ReleaseTimestamp with
    | none => simp [name_run m _ n hN, run_bind, deref, goPanic, hT] at h
    | some ts =>
      rcases hid : m.id s with ⟨o, s2⟩
      cases o with
      | aborted msg => simp [name_run m _ n hN, run_bind, deref, Exec.pure, hT, hid] at h
      | ret vid =>
        simp only [name_run m _ n hN, run_bind, deref, Exec.pure, hT, hid, invoke, run_pure] at h
        generalize m.core.EC2.CreateSnapshot _ _ = res at h
        rcases res with ⟨r, p⟩
        cases r with
        | error err => simp [run_pure] at h
        | ok snap =>
          simp only [run_bind, invoke] at h
          generalize m.core.EC2.WaitUntilSnapshotCompleted _ _ = res2 at h
          rcases res2 with ⟨r2, p2⟩
          cases r2 with
          | some err => simp [run_pure] at h
          | none =>
            simp only [run_pure, Prod.mk.injEq, Outcome.ret.injEq] at h
            refine ⟨snap, ⟨m.Instance.BaseName ++ "-" ++ n ++ "-" ++ ts, vid⟩,
              Call.WaitUntilSnapshotCompleted ⟨[snap.SnapshotId]⟩, h.1.1.symm, ?_⟩
            rw [← h.2]
            simp

/-- C4. When the snapshot step of `Resize` succeeds and the `Delete` that follows
returns an error, `Resize` returns that error and stops there: among the calls
it issued there is the `CreateSnapshot` of step 1 and there is no `CreateVolume`,
no `CreateTags` and no `DeleteSnapshot`. The snapshot step runs in the world in
which the line that `Resize` logs first has been appended. -/
theorem resize_stops_when_delete_fails {σ : Type} (m : AwsVolume σ) (s s1 s2 : Sys σ)
    (n : String) (snapshot : Option Snapshot) (e : AwsError)
    (hname : m.Blueprint.Name = some n)
    (hsnap : m.createSnapshot
      { s with log := s.log ++ ["Resizing EBS volume " ++ (m.Instance.BaseName ++ "-" ++ n)] }
      = (Outcome.ret (snapshot, none), s1))
    (hdel : m.Delete s1 = (Outcome.ret (some e), s2)) :
    m.Resize s = (Outcome.ret (some e), s2) ∧
    ∃ new, s2.calls = s.calls ++ new ∧ (∃ i, Call.CreateSnapshot i ∈ new) ∧
      ∀ c ∈ new, c.op ≠ Op.CreateVolume ∧ c.op ≠ Op.CreateTags ∧ c.op ≠ Op.DeleteSnapshot := by
  constructor
  · simp [AwsVolume.Resize, run_bind, run_pure, name_run m _ n hname, logPrintf, hsnap, hdel]
  · obtain ⟨n1, h1, q1⟩ := emits_createSnapshot
      (fun c => c.op ≠ Op.CreateVolume ∧ c.op ≠ Op.CreateTags ∧ c.op ≠ Op.DeleteSnapshot) m
      (fun _ => by simp [Call.op]) (fun _ => by simp [Call.op]) (fun _ => by simp [Call.op])
      { s with log := s.log ++ ["Resizing EBS volume " ++ (m.Instance.BaseName ++ "-" ++ n)] }
    obtain ⟨n2, h2, q2⟩ := emits_Delete
      (fun c => c.op ≠ Op.CreateVolume ∧ c.op ≠ Op.CreateTags ∧ c.op ≠ Op.DeleteSnapshot) m
      (fun _ => by simp [Call.op]) (fun _ => by simp [Call.op]) (fun _ => by simp [Call.op]) s1
    rw [hsnap] at h1
    rw [hdel] at h2
    simp only at h1 h2
    obtain ⟨snap, i, w, -, hi⟩ := createSnapshot_success m _ s1 snapshot hsnap
    obtain ⟨n0, h0, -⟩ := emits_id (fun _ => True) m (fun _ => trivial)
      { s with log := s.log ++ ["Resizing EBS volume " ++ (m.Instance.BaseName ++ "-" ++ n)] }
    simp only at h0
    rw [h0, h1, List.append_assoc] at hi
    have hn1 := List.append_cancel_left hi
    refine ⟨n1 ++ n2, by rw [h2, h1, List.append_assoc], ⟨i, ?_⟩, ?_⟩
    · rw [hn1]
      simp
    · intro c hc
      rcases List.mem_append.mp hc with hc | hc
      · exact q1 c hc
      · exact q2 c hc

/-- C4, at a concrete input: the handle holds `vol-old` and `DeleteVolume` fails. -/
theorem resize_stops_when_delete_fails_witness :
    (demo deleteFailEC2 20).Resize sysOld =
      (Outcome.ret (some boom), ((demo deleteFailEC2 20).Resize sysOld).2) ∧
    ∃ new, ((demo deleteFailEC2 20).Resize sysOld).2.calls = sysOld.calls ++ new ∧
      (∃ i, Call.CreateSnapshot i ∈ new) ∧
      ∀ c ∈ new, c.op ≠ Op.CreateVolume ∧ c.op ≠ Op.CreateTags ∧ c.op ≠ Op.DeleteSnapshot :=
  resize_stops_when_delete_fails (demo deleteFailEC2 20) sysOld _ _ "data" (some snapOne) boom
    rfl rfl rfl

theorem withDeleteSnapshot_createSnapshot {σ : Type} (m : AwsVolume σ)
    (f : DeleteSnapshotInput → σ → Option AwsError × σ) :
    (withDeleteSnapshot m f).createSnapshot = m.createSnapshot := rfl

theorem withDeleteSnapshot_Delete {σ : Type} (m : AwsVolume σ)
    (f : DeleteSnapshotInput → σ → Option AwsError × σ) :
    (withDeleteSnapshot m f).Delete = m.Delete := rfl

theorem withDeleteSnapshot_createAwsVolume {σ : Type} (m : AwsVolume σ)
    (f : DeleteSnapshotInput → σ → Option AwsError × σ) (snapshotID : Option String) :
    (withDeleteSnapshot m f).createAwsVolume snapshotID = m.createAwsVolume snapshotID := rfl

/-- C5. When snapshot creation, deletion of the old volume and recreation from
the snapshot succeed, then on every provider that differs from this one only in
how `DeleteSnapshot` answers (`f`, succeeding or failing), `Resize` returns nil;
the handle is the one that recreation left, whatever `f` answers, the only
further call is that `DeleteSnapshot`, and a failure of it shows only as one
more logged line. The snapshot record carries its id. -/
theorem resize_ignores_cleanup_failure {σ : Type} (m : AwsVolume σ) (s s1 s2 s3 : Sys σ)
    (n sid : String) (snap : Snapshot) (f : DeleteSnapshotInput → σ → Option AwsError × σ)
    (hname : m.Blueprint.Name = some n)
    (hsnap : m.createSnapshot
      { s with log := s.log ++ ["Resizing EBS volume " ++ (m.Instance.BaseName ++ "-" ++ n)] }
      = (Outcome.ret (some snap, none), s1))
    (hdel : m.Delete s1 = (Outcome.ret none, s2))
    (hcreate : m.createAwsVolume snap.SnapshotId s2 = (Outcome.ret none, s3))
    (hsid : snap.SnapshotId = some sid) :
    ∃ s4, (withDeleteSnapshot m f).Resize s = (Outcome.ret none, s4) ∧
      s4.awsVol = s3.awsVol ∧
      s4.calls = s3.calls ++ [Call.DeleteSnapshot { SnapshotId := some sid }] ∧
      s4.log = s3.log ++
        (match (f { SnapshotId := some sid } s3.ec2).1 with
          | some e => ["Error deleting snapshot " ++ sid ++ ": " ++ e.message]
          | none => []) := by
  rw [hsid] at hcreate
  have hname2 : (withDeleteSnapshot m f).Blueprint.Name = some n := hname
  have hsnap2 : (withDeleteSnapshot m f).createSnapshot
      { s with log := s.log ++ ["Resizing EBS volume " ++ (m.Instance.BaseName ++ "-" ++ n)] }
      = (Outcome.ret (some snap, none), s1) := hsnap
  have hdel2 : (withDeleteSnapshot m f).Delete s1 = (Outcome.ret none, s2) := hdel
  have hcreate2 : (withDeleteSnapshot m f).createAwsVolume (some sid) s2
      = (Outcome.ret none, s3) := hcreate
  have hbase : (withDeleteSnapshot m f).Instance.BaseName = m.Instance.BaseName := rfl
  have hf : (withDeleteSnapshot m f).core.EC2.DeleteSnapshot = f := rfl
  cases hd : (f { SnapshotId := some sid } s3.ec2).1 with
  | none =>
    refine ⟨{ s3 with
      ec2 := (f { SnapshotId := some sid } s3.ec2).2
      calls := s3.calls ++ [Call.DeleteSnapshot { SnapshotId := some sid }] }, ?_, rfl, rfl,
      by simp⟩
    simp [AwsVolume.Resize, AwsVolume.deleteSnapshot, run_bind, run_pure,
      name_run (withDeleteSnapshot m f) _ n hname2, hbase, hf,
      logPrintf, deref, Exec.pure, invoke, hsnap2, hdel2, hcreate2, hsid, hd]
  | some e =>
    refine ⟨{ s3 with
      ec2 := (f { SnapshotId := some sid } s3.ec2).2
      calls := s3.calls ++ [Call.DeleteSnapshot { SnapshotId := some sid }]
      log := s3.log ++ ["Error deleting snapshot " ++ sid ++ ": " ++ e.message] }, ?_, rfl, rfl,
      by simp⟩
    simp [AwsVolume.Resize, AwsVolume.deleteSnapshot, run_bind, run_pure,
      name_run (withDeleteSnapshot m f) _ n hname2, hbase, hf,
      logPrintf, deref, Exec.pure, invoke, hsnap2, hdel2, hcreate2, hsid, hd]

/-- C5, at a concrete input: the handle holds `vol-old`, the three fatal steps
succeed and the final `DeleteSnapshot` fails with `boom`. -/
theorem resize_ignores_cleanup_failure_witness :
    ∃ s4, (withDeleteSnapshot (demo foundEC2 20) (fun _ u => (some boom, u))).Resize sysOld
        = (Outcome.ret none, s4) ∧
      s4.awsVol = some volNew ∧
      s4.calls.getLast? = some (Call.DeleteSnapshot { SnapshotId := some "snap-1" }) ∧
      s4.log.getLast? = some "Error deleting snapshot snap-1: RequestLimitExceeded" := by
  obtain ⟨s4, h1, h2, h3, h4⟩ :=
    resize_ignores_cleanup_failure (demo foundEC2 20) sysOld _ _ _ "data" "snap-1" snapOne
      (fun _ u => (some boom, u)) rfl rfl rfl rfl rfl
  exact ⟨s4, h1, h2, by rw [h3]; simp, by rw [h4]; rfl⟩

/-- C6 fails as stated: with the handle holding the 10 GB volume of identity
`node1-data`, blueprint size 20 and every call succeeding, `Resize` returns nil
and the calls it issues are not the seven listed ones: a
`WaitUntilVolumeAvailable` on the old volume precedes `DeleteVolume`. -/
theorem resize_call_sequence_counterexample :
    ((demo foundEC2 20).Resize sysOld).1 = Outcome.ret none ∧
    ((demo foundEC2 20).Resize sysOld).2.calls ≠
      [ Call.CreateSnapshot { Description := "node1-data-t0", VolumeId := some "vol-old" },
        Call.WaitUntilSnapshotCompleted { SnapshotIds := [some "snap-1"] },
        Call.DeleteVolume { VolumeId := some "vol-old" },
        Call.CreateVolume
          { AvailabilityZone := "us-east-1c", VolumeType := "gp2", Size := 20,
            SnapshotId := some "snap-1" },
        Call.CreateTags
          { Resources := ["vol-new"], Tags := [ { Key := "Name", Value := "node1-data" } ] },
        Call.WaitUntilVolumeAvailable
          { Filters := [ { Name := "volume-id", Values := [some "vol-new"] } ] },
        Call.DeleteSnapshot { SnapshotId := some "snap-1" } ] := by
  decide

/-- C6, amended. With the handle holding a discovered volume and every call
succeeding, `Resize` returns nil and issues exactly these eight calls in this
order: `CreateSnapshot` of the old volume, `WaitUntilSnapshotCompleted`,
`WaitUntilVolumeAvailable` on the old volume, `DeleteVolume` of the old volume,
`CreateVolume` with the blueprint size and that snapshot, `CreateTags` with the
identity as `Name`, `WaitUntilVolumeAvailable` on the new volume,
`DeleteSnapshot`. -/
theorem resize_call_sequence {σ : Type} (m : AwsVolume σ) (s : Sys σ)
    (n ts newId : String) (vOld vNew : Volume) (snap : Snapshot) (p1 p2 p3 p4 p5 p6 p7 p8 : σ)
    (hname : m.Blueprint.Name = some n) (hts : m.Instance.ReleaseTimestamp = some ts)
    (hold : s.awsVol = some vOld)
    (h1 : m.core.EC2.CreateSnapshot
      { Description := m.Instance.BaseName ++ "-" ++ n ++ "-" ++ ts,
        VolumeId := vOld.VolumeId } s.ec2 = (Except.ok snap, p1))
    (h2 : m.core.EC2.WaitUntilSnapshotCompleted
      { SnapshotIds := [snap.SnapshotId] } p1 = (none, p2))
    (h3 : m.core.EC2.WaitUntilVolumeAvailable
      { Filters := [ { Name := "volume-id", Values := [vOld.VolumeId] } ] } p2 = (none, p3))
    (h4 : m.core.EC2.DeleteVolume { VolumeId := vOld.VolumeId } p3 = (none, p4))
    (h5 : m.core.EC2.CreateVolume
      { AvailabilityZone := m.core.AwsAZ, VolumeType := m.Blueprint.Type_,
        Size := int64 m.Blueprint.Size, SnapshotId := snap.SnapshotId } p4 = (Except.ok vNew, p5))
    (hvid : vNew.VolumeId = some newId)
    (h6 : m.core.EC2.CreateTags
      { Resources := [newId],
        Tags := [ { Key := "Name", Value := m.Instance.BaseName ++ "-" ++ n } ] } p5 = (none, p6))
    (h7 : m.core.EC2.WaitUntilVolumeAvailable
      { Filters := [ { Name := "volume-id", Values := [some newId] } ] } p6 = (none, p7))
    (h8 : m.core.EC2.DeleteSnapshot { SnapshotId := snap.SnapshotId } p7 = (none, p8)) :
    ∃ s1, m.Resize s = (Outcome.ret none, s1) ∧ s1.awsVol = some vNew ∧
      s1.calls = s.calls ++
        [ Call.CreateSnapshot
            { Description := m.Instance.BaseName ++ "-" ++ n ++ "-" ++ ts,
              VolumeId := vOld.VolumeId },
          Call.WaitUntilSnapshotCompleted { SnapshotIds := [snap.SnapshotId] },
          Call.WaitUntilVolumeAvailable
            { Filters := [ { Name := "volume-id", Values := [vOld.VolumeId] } ] },
          Call.DeleteVolume { VolumeId := vOld.VolumeId },
          Call.CreateVolume
            { AvailabilityZone := m.core.AwsAZ, VolumeType := m.Blueprint.Type_,
              Size := int64 m.Blueprint.Size, SnapshotId := snap.SnapshotId },
          Call.CreateTags
            { Resources := [newId],
              Tags := [ { Key := "Name", Value := m.Instance.BaseName ++ "-" ++ n } ] },
          Call.WaitUntilVolumeAvailable
            { Filters := [ { Name := "volume-id", Values := [some newId] } ] },
          Call.DeleteSnapshot { SnapshotId := snap.SnapshotId } ] := by
  refine ⟨
    { awsVol := some vNew
      ec2 := p8
      calls := _
      log := s.log ++
        [ "Resizing EBS volume " ++ (m.Instance.BaseName ++ "-" ++ n),
          "Waiting for EBS volume " ++ (m.Instance.BaseName ++ "-" ++ n) ++ " to be available",
          "Deleting EBS volume " ++ (m.Instance.BaseName ++ "-" ++ n),
          "Waiting for EBS volume " ++ (m.Instance.BaseName ++ "-" ++ n) ++ " to be available" ] },
    ?_, rfl, rfl⟩
  simp [AwsVolume.Resize, AwsVolume.createSnapshot, AwsVolume.Delete, AwsVolume.createAwsVolume,
    AwsVolume.deleteSnapshot, AwsVolume.WaitForAvailable, AwsVolume.id, AwsVolume.awsVolume,
    name_run m _ n hname, run_bind, run_pure, getAwsVol, setAwsVol, invoke, logPrintf, deref,
    Exec.pure, hts, hold, h1, h2, h3, h4, h5, hvid, h6, h7, h8]

/-- C6 amended, at the input of the claim: blueprint size 20, an existing 10 GB
volume of identity `node1-data`. -/
theorem resize_call_sequence_witness :
    ∃ s1, (demo foundEC2 20).Resize sysOld = (Outcome.ret none, s1) ∧ s1.awsVol = some volNew ∧
      s1.calls =
        [ Call.CreateSnapshot { Description := "node1-data-t0", VolumeId := some "vol-old" },
          Call.WaitUntilSnapshotCompleted { SnapshotIds := [some "snap-1"] },
          Call.WaitUntilVolumeAvailable
            { Filters := [ { Name := "volume-id", Values := [some "vol-old"] } ] },
          Call.DeleteVolume { VolumeId := some "vol-old" },
          Call.CreateVolume
            { AvailabilityZone := "us-east-1c", VolumeType := "gp2", Size := 20,
              SnapshotId := some "snap-1" },
          Call.CreateTags
            { Resources := ["vol-new"], Tags := [ { Key := "Name", Value := "node1-data" } ] },
          Call.WaitUntilVolumeAvailable
            { Filters := [ { Name := "volume-id", Values := [some "vol-new"] } ] },
          Call.DeleteSnapshot { SnapshotId := some "snap-1" } ] :=
  resize_call_sequence (demo foundEC2 20) sysOld "data" "t0" "vol-new" volOld volNew snapOne
    () () () () () () () () rfl rfl rfl rfl rfl rfl rfl rfl rfl rfl rfl rfl


theorem delete_after_discovery {σ : Type} (m : AwsVolume σ) (s s1 : Sys σ) (v : Volume)
    (h : m.awsVolume s = (Outcome.ret (some v), s1)) : m.Delete s = m.Delete s1 := by
  have hpost := awsVolume_post m s s1 _ h
  simp [AwsVolume.Delete, run_bind, h, awsVolume_cached m s1 v hpost]

theorem delete_cached_wait_fails {σ : Type} (m : AwsVolume σ) (s : Sys σ) (v : Volume)
    (n : String) (e : AwsError) (hname : m.Blueprint.Name = some n) (h : s.awsVol = some v)
    (hw : (m.core.EC2.WaitUntilVolumeAvailable
      { Filters := [ { Name := "volume-id", Values := [v.VolumeId] } ] } s.ec2).1 = some e) :
    (m.Delete s).1 = Outcome.ret (some e) ∧ (m.Delete s).2.awsVol = some v ∧
      (m.Delete s).2.calls = s.calls ++ [ Call.WaitUntilVolumeAvailable
        { Filters := [ { Name := "volume-id", Values := [v.VolumeId] } ] } ] ∧
      (m.Delete s).2.ec2 = (m.core.EC2.WaitUntilVolumeAvailable
        { Filters := [ { Name := "volume-id", Values := [v.VolumeId] } ] } s.ec2).2 ∧
      (m.Delete s).2.log = s.log ++
        ["Waiting for EBS volume " ++ (m.Instance.BaseName ++ "-" ++ n) ++ " to be available"] := by
  simp [AwsVolume.Delete, AwsVolume.WaitForAvailable, AwsVolume.id, AwsVolume.awsVolume,
    name_run m _ n hname, run_bind, run_pure, getAwsVol, invoke, logPrintf, h, hw]

theorem delete_cached_wait_ok {σ : Type} (m : AwsVolume σ) (s : Sys σ) (v : Volume)
    (n : String) (r : Option AwsError) (hname : m.Blueprint.Name = some n)
    (h : s.awsVol = some v)
    (hw : (m.core.EC2.WaitUntilVolumeAvailable
      { Filters := [ { Name := "volume-id", Values := [v.VolumeId] } ] } s.ec2).1 = none)
    (hd : (m.core.EC2.DeleteVolume { VolumeId := v.VolumeId }
        (m.core.EC2.WaitUntilVolumeAvailable
          { Filters := [ { Name := "volume-id", Values := [v.VolumeId] } ] } s.ec2).2).1 = r) :
    (m.Delete s).1 = Outcome.ret r ∧
      (m.Delete s).2.awsVol = (if r = none then none else some v) ∧
      (m.Delete s).2.calls = s.calls ++
        [ Call.WaitUntilVolumeAvailable
            { Filters := [ { Name := "volume-id", Values := [v.VolumeId] } ] },
          Call.DeleteVolume { VolumeId := v.VolumeId } ] ∧
      (m.Delete s).2.ec2 = (m.core.EC2.DeleteVolume { VolumeId := v.VolumeId }
        (m.core.EC2.WaitUntilVolumeAvailable
          { Filters := [ { Name := "volume-id", Values := [v.VolumeId] } ] } s.ec2).2).2 ∧
      (m.Delete s).2.log = s.log ++
        [ "Waiting for EBS volume " ++ (m.Instance.BaseName ++ "-" ++ n) ++ " to be available",
          "Deleting EBS volume " ++ (m.Instance.BaseName ++ "-" ++ n) ] := by
  cases r with
  | none =>
    simp [AwsVolume.Delete, AwsVolume.WaitForAvailable, AwsVolume.id, AwsVolume.awsVolume,
      name_run m _ n hname, run_bind, run_pure, getAwsVol, setAwsVol, invoke, logPrintf, h, hw,
      hd]
  | some e =>
    simp [AwsVolume.Delete, AwsVolume.WaitForAvailable, AwsVolume.id, AwsVolume.awsVolume,
      name_run m _ n hname, run_bind, run_pure, getAwsVol, setAwsVol, invoke, logPrintf, h, hw,
      hd]

theorem delete_cached_calls {σ : Type} (m : AwsVolume σ) (s : Sys σ) (v : Volume)
    (n : String) (hname : m.Blueprint.Name = some n) (h : s.awsVol = some v) :
    ∃ new, (m.Delete s).2.calls = s.calls ++ new ∧
      ∀ c ∈ new,
        c = Call.WaitUntilVolumeAvailable
          { Filters := [ { Name := "volume-id", Values := [v.VolumeId] } ] } ∨
        c = Call.DeleteVolume { VolumeId := v.VolumeId } := by
  cases hw : (m.core.EC2.WaitUntilVolumeAvailable
      { Filters := [ { Name := "volume-id", Values := [v.VolumeId] } ] } s.ec2).1 with
  | some e =>
    exact ⟨_, (delete_cached_wait_fails m s v n e hname h hw).2.2.1, by simp⟩
  | none =>
    exact ⟨_, (delete_cached_wait_ok m s v n _ hname h hw rfl).2.2.1, by simp⟩

/-- C8. When discovery finds a volume `v` (`s1` is the world right after
discovery), `Delete` returns, and what it returns is fixed by the provider:
* if the wait-until-available on the id of `v` fails with `e`, `Delete` returns
  `e`, the handle still holds `v`, and the wait is the only call issued: no
  `DeleteVolume`;
* if the wait succeeds, `Delete` issues the wait and then `DeleteVolume` on the id
  of `v` and returns the answer of `DeleteVolume`: on an error the handle still
  holds `v`, on nil the handle is empty.
So an error leaves the handle on `v` and nil leaves it empty; after an error a
retry issues no `DescribeVolumes`, only the wait and the `DeleteVolume` on the id
of `v`; and a `DeleteVolume` is issued only after the wait has succeeded. -/
theorem delete_outcome_and_handle {σ : Type} (m : AwsVolume σ) (s s1 : Sys σ) (v : Volume)
    (n : String) (hname : m.Blueprint.Name = some n)
    (hdisc : m.awsVolume s = (Outcome.ret (some v), s1)) :
    ∃ r s2 new, m.Delete s = (Outcome.ret r, s2) ∧ s2.calls = s1.calls ++ new ∧
      (r = none → s2.awsVol = none) ∧
      (r ≠ none → s2.awsVol = some v ∧
        ∃ again, (m.Delete s2).2.calls = s2.calls ++ again ∧
          ∀ c ∈ again,
            c = Call.WaitUntilVolumeAvailable
              { Filters := [ { Name := "volume-id", Values := [v.VolumeId] } ] } ∨
            c = Call.DeleteVolume { VolumeId := v.VolumeId }) ∧
      (∀ i, Call.DeleteVolume i ∈ new →
        (m.core.EC2.WaitUntilVolumeAvailable
          { Filters := [ { Name := "volume-id", Values := [v.VolumeId] } ] } s1.ec2).1 = none ∧
        new =
          [ Call.WaitUntilVolumeAvailable
              { Filters := [ { Name := "volume-id", Values := [v.VolumeId] } ] },
            Call.DeleteVolume { VolumeId := v.VolumeId } ]) ∧
      (∀ e, (m.core.EC2.WaitUntilVolumeAvailable
          { Filters := [ { Name := "volume-id", Values := [v.VolumeId] } ] } s1.ec2).1 = some e →
        r = some e ∧ s2.awsVol = some v ∧
        new = [ Call.WaitUntilVolumeAvailable
          { Filters := [ { Name := "volume-id", Values := [v.VolumeId] } ] } ] ∧
        s2.ec2 = (m.core.EC2.WaitUntilVolumeAvailable
          { Filters := [ { Name := "volume-id", Values := [v.VolumeId] } ] } s1.ec2).2) ∧
      ((m.core.EC2.WaitUntilVolumeAvailable
          { Filters := [ { Name := "volume-id", Values := [v.VolumeId] } ] } s1.ec2).1 = none →
        r = (m.core.EC2.DeleteVolume { VolumeId := v.VolumeId }
          (m.core.EC2.WaitUntilVolumeAvailable
            { Filters := [ { Name := "volume-id", Values := [v.VolumeId] } ] } s1.ec2).2).1 ∧
        s2.awsVol = (if r = none then none else some v) ∧
        new =
          [ Call.WaitUntilVolumeAvailable
              { Filters := [ { Name := "volume-id", Values := [v.VolumeId] } ] },
            Call.DeleteVolume { VolumeId := v.VolumeId } ] ∧
        s2.ec2 = (m.core.EC2.DeleteVolume { VolumeId := v.VolumeId }
          (m.core.EC2.WaitUntilVolumeAvailable
            { Filters := [ { Name := "volume-id", Values := [v.VolumeId] } ] } s1.ec2).2).2) := by
  have hpost := awsVolume_post m s s1 _ hdisc
  rw [delete_after_discovery m s s1 v hdisc]
  cases hw : (m.core.EC2.WaitUntilVolumeAvailable
      { Filters := [ { Name := "volume-id", Values := [v.VolumeId] } ] } s1.ec2).1 with
  | some e =>
    obtain ⟨h1, h2, h3, h4, -⟩ := delete_cached_wait_fails m s1 v n e hname hpost hw
    refine ⟨some e, (m.Delete s1).2, _, Prod.ext h1 rfl, h3, fun h => (by cases h),
      fun _ => ⟨h2, delete_cached_calls m _ v n hname h2⟩, ?_, ?_, fun h => (by cases h)⟩
    · intro i hi
      simp at hi
    · intro e2 he2
      cases he2
      exact ⟨rfl, h2, rfl, h4⟩
  | none =>
    obtain ⟨h1, h2, h3, h4, -⟩ := delete_cached_wait_ok m s1 v n _ hname hpost hw rfl
    refine ⟨_, (m.Delete s1).2, _, Prod.ext h1 rfl, h3, fun h => (by rw [h2, if_pos h]),
      fun h => ?_, fun _ _ => ⟨rfl, rfl⟩, fun e2 he2 => (by cases he2),
      fun _ => ⟨rfl, h2, rfl, h4⟩⟩
    rw [if_neg h] at h2
    exact ⟨h2, delete_cached_calls m _ v n hname h2⟩

/-- C8, at a concrete input: discovery finds `vol-old`, the wait succeeds and
`DeleteVolume` fails with `boom`: `Delete` returns `boom`, the handle still holds
`vol-old`, and the calls are the discovery query, the wait and the
`DeleteVolume`. -/
theorem delete_outcome_and_handle_witness :
    ∃ s2, (demo deleteFailEC2 20).Delete sys0 = (Outcome.ret (some boom), s2) ∧
      s2.awsVol = some volOld ∧
      s2.calls =
        [ Call.DescribeVolumes (discoveryInput "node1-data"),
          Call.WaitUntilVolumeAvailable
            { Filters := [ { Name := "volume-id", Values := [some "vol-old"] } ] },
          Call.DeleteVolume { VolumeId := some "vol-old" } ] := by
  obtain ⟨r, s2, new, hrun, hcalls, -, -, -, -, hok⟩ :=
    delete_outcome_and_handle (demo deleteFailEC2 20) sys0 _ volOld "data" rfl rfl
  obtain ⟨hr, hvol, hnew, -⟩ := hok rfl
  have hr2 : r = some boom := hr
  subst hr2
  subst hnew
  exact ⟨s2, hrun, hvol, hcalls⟩

/-- C9 fails as stated: the value that `createAwsVolume` (and `Provision`) returns
when `CreateTags` fails after a successful `CreateVolume` is equal to the value
returned when `CreateVolume` itself fails with the same provider error. -/
theorem tagging_failure_counterexample :
    ((demo tagFailEC2 20).createAwsVolume none sys0).2.calls.map Call.op =
      [Op.CreateVolume, Op.CreateTags] ∧
    ((demo tagFailEC2 20).createAwsVolume none sys0).1 =
      ((demo createFailEC2 20).createAwsVolume none sys0).1 ∧
    ((demo tagFailEC2 20).Provision sys0).1 = ((demo createFailEC2 20).Provision sys0).1 := by
  decide

/-- C9, amended. When `CreateTags` fails after `CreateVolume` succeeded,
`createAwsVolume` returns the provider's tagging error itself (it is not
swallowed), leaves the handle and the log as they were and issues no wait. No
separate error kind exists: a `createAwsVolume` whose `CreateVolume` call fails
with the same error returns the same value. `Provision` on an absent volume
returns what `createAwsVolume` returns. -/
theorem tagging_failure_returns_provider_error {σ : Type} (m : AwsVolume σ) (s : Sys σ)
    (snapshotID : Option String) (n vid : String) (v : Volume) (e : AwsError) (p1 p2 : σ)
    (hname : m.Blueprint.Name = some n)
    (hcreate : m.core.EC2.CreateVolume
      { AvailabilityZone := m.core.AwsAZ, VolumeType := m.Blueprint.Type_,
        Size := int64 m.Blueprint.Size, SnapshotId := snapshotID } s.ec2 = (Except.ok v, p1))
    (hvid : v.VolumeId = some vid)
    (htag : m.core.EC2.CreateTags
      { Resources := [vid],
        Tags := [ { Key := "Name", Value := m.Instance.BaseName ++ "-" ++ n } ] } p1
      = (some e, p2)) :
    m.createAwsVolume snapshotID s =
      (Outcome.ret (some e),
        { s with
          ec2 := p2
          calls := s.calls ++
            [ Call.CreateVolume
                { AvailabilityZone := m.core.AwsAZ, VolumeType := m.Blueprint.Type_,
                  Size := int64 m.Blueprint.Size, SnapshotId := snapshotID },
              Call.CreateTags
                { Resources := [vid],
                  Tags := [ { Key := "Name", Value := m.Instance.BaseName ++ "-" ++ n } ] } ] }) ∧
    (∀ (m2 : AwsVolume σ) (sid2 : Option String) (s2 : Sys σ),
      (m2.core.EC2.CreateVolume
        { AvailabilityZone := m2.core.AwsAZ, VolumeType := m2.Blueprint.Type_,
          Size := int64 m2.Blueprint.Size, SnapshotId := sid2 } s2.ec2).1 = Except.error e →
      (m2.createAwsVolume sid2 s2).1 = (m.createAwsVolume snapshotID s).1) ∧
    (∀ s3 s4 : Sys σ, m.awsVolume s3 = (Outcome.ret none, s4) →
      m.Provision s3 = m.createAwsVolume none
        { s4 with log := s4.log ++ ["Creating EBS volume " ++ (m.Instance.BaseName ++ "-" ++ n)] }) := by
  have h1 : m.createAwsVolume snapshotID s =
      (Outcome.ret (some e),
        { s with
          ec2 := p2
          calls := s.calls ++
            [ Call.CreateVolume
                { AvailabilityZone := m.core.AwsAZ, VolumeType := m.Blueprint.Type_,
                  Size := int64 m.Blueprint.Size, SnapshotId := snapshotID },
              Call.CreateTags
                { Resources := [vid],
                  Tags := [ { Key := "Name", Value := m.Instance.BaseName ++ "-" ++ n } ] } ] }) := by
    simp [AwsVolume.createAwsVolume, name_run m _ n hname, run_bind, run_pure, invoke, deref,
      Exec.pure, hcreate, hvid, htag]
  refine ⟨h1, ?_, ?_⟩
  · intro m2 sid2 s2 hfail
    rw [h1]
    simp [AwsVolume.createAwsVolume, run_bind, run_pure, invoke, hfail]
  · intro s3 s4 hdisc
    simp [AwsVolume.Provision, run_bind, name_run m _ n hname, logPrintf, hdisc]

/-- C9 amended, at a concrete input: `CreateTags` fails with `boom`. -/
theorem tagging_failure_returns_provider_error_witness :
    ((demo tagFailEC2 20).createAwsVolume none sys0).1 = Outcome.ret (some boom) ∧
    ((demo tagFailEC2 20).createAwsVolume none sys0).2.awsVol = none :=
  ⟨congrArg Prod.fst (tagging_failure_returns_provider_error (demo tagFailEC2 20) sys0 none
      "data" "vol-new" volNew boom () () rfl rfl rfl rfl).1,
    congrArg (fun x => x.2.awsVol) (tagging_failure_returns_provider_error (demo tagFailEC2 20)
      sys0 none "data" "vol-new" volNew boom () () rfl rfl rfl rfl).1⟩


/-- C10 fails as stated: when discovery finds no volume the result is not
cached; a second `awsVolume` (and likewise `NeedsResize`) on the same
controller issues a second `DescribeVolumes` query. -/
theorem memoization_counterexample :
    ((demo okEC2 20).awsVolume sys0).1 = Outcome.ret none ∧
    (((demo okEC2 20).awsVolume sys0).2.calls.map Call.op) = [Op.DescribeVolumes] ∧
    (((demo okEC2 20).awsVolume ((demo okEC2 20).awsVolume sys0).2).2.calls.map Call.op) =
      [Op.DescribeVolumes, Op.DescribeVolumes] ∧
    (((demo okEC2 20).NeedsResize ((demo okEC2 20).awsVolume sys0).2).2.calls.map Call.op) =
      [Op.DescribeVolumes, Op.DescribeVolumes] := by
  decide

/-- C10, amended. After a discovery that found a volume `v`, the identity
queries `awsVolume`, `id` and `NeedsResize` on the same controller leave the
world as it is (no provider call at all) and answer from `v`. After a discovery
that found no volume the handle is still empty, and the next `awsVolume` issues
the `DescribeVolumes` query again. -/
theorem memoized_when_found {σ : Type} (m : AwsVolume σ) (s s1 : Sys σ) (v : Volume)
    (hdisc : m.awsVolume s = (Outcome.ret (some v), s1)) :
    m.awsVolume s1 = (Outcome.ret (some v), s1) ∧
    m.id s1 = (Outcome.ret v.VolumeId, s1) ∧
    (m.NeedsResize s1).2 = s1 ∧
    (∀ S, v.Size = some S →
      m.NeedsResize s1 = (Outcome.ret (decide (int64 m.Blueprint.Size ≠ S)), s1)) ∧
    (∀ (n : String) (s2 s3 : Sys σ), m.Blueprint.Name = some n →
      m.awsVolume s2 = (Outcome.ret none, s3) →
      s3.awsVol = none ∧
      (m.awsVolume s3).2.calls = s3.calls ++
        [Call.DescribeVolumes (discoveryInput (m.Instance.BaseName ++ "-" ++ n))]) := by
  have hpost := awsVolume_post m s s1 _ hdisc
  have hc := awsVolume_cached m s1 v hpost
  refine ⟨hc, id_cached m s1 v hpost, ?_, ?_, ?_⟩
  · cases hS : v.Size <;>
      simp [AwsVolume.NeedsResize, run_bind, run_pure, hc, deref, Exec.pure, goPanic, hS]
  · intro S hS
    simp [AwsVolume.NeedsResize, run_bind, run_pure, hc, deref, Exec.pure, hS]
  · intro n s2 s3 hname hnone
    have h3 := awsVolume_post m s2 s3 _ hnone
    refine ⟨h3, ?_⟩
    simp only [AwsVolume.awsVolume, AwsVolume.loadAwsVolume, name_run m _ n hname, run_bind,
      getAwsVol, invoke, h3]
    generalize m.core.EC2.DescribeVolumes _ _ = res
    rcases res with ⟨r, p⟩
    rcases r with err | vols
    · simp [goPanic]
    · cases vols <;> simp [run_pure, setAwsVol, getAwsVol]

/-- C10 amended, at a concrete input: discovery finds the 10 GB volume. -/
theorem memoized_when_found_witness :
    (demo foundEC2 20).id ((demo foundEC2 20).awsVolume sys0).2 =
      (Outcome.ret (some "vol-old"), ((demo foundEC2 20).awsVolume sys0).2) :=
  (memoized_when_found (demo foundEC2 20) sys0 _ volOld rfl).2.1


theorem resize_success_inv {σ : Type} (m : AwsVolume σ) (s s1 : Sys σ) (vOld : Volume)
    (n : String) (hname : m.Blueprint.Name = some n) (hold : s.awsVol = some vOld)
    (hres : m.Resize s = (Outcome.ret none, s1)) :
    ∃ (ts newId : String) (snap : Snapshot) (vNew : Volume) (p4 : σ),
      (m.core.EC2.CreateVolume
        { AvailabilityZone := m.core.AwsAZ, VolumeType := m.Blueprint.Type_,
          Size := int64 m.Blueprint.Size, SnapshotId := snap.SnapshotId } p4).1 = Except.ok vNew ∧
      vNew.VolumeId = some newId ∧
      s1.awsVol = some vNew ∧
      s1.calls = s.calls ++
        [ Call.CreateSnapshot
            { Description := m.Instance.BaseName ++ "-" ++ n ++ "-" ++ ts,
              VolumeId := vOld.VolumeId },
          Call.WaitUntilSnapshotCompleted { SnapshotIds := [snap.SnapshotId] },
          Call.WaitUntilVolumeAvailable
            { Filters := [ { Name := "volume-id", Values := [vOld.VolumeId] } ] },
          Call.DeleteVolume { VolumeId := vOld.VolumeId },
          Call.CreateVolume
            { AvailabilityZone := m.core.AwsAZ, VolumeType := m.Blueprint.Type_,
              Size := int64 m.Blueprint.Size, SnapshotId := snap.SnapshotId },
          Call.CreateTags
            { Resources := [newId],
              Tags := [ { Key := "Name", Value := m.Instance.BaseName ++ "-" ++ n } ] },
          Call.WaitUntilVolumeAvailable
            { Filters := [ { Name := "volume-id", Values := [some newId] } ] },
          Call.DeleteSnapshot { SnapshotId := snap.SnapshotId } ] := by
  cases hT : m.Instance.ReleaseTimestamp with
  | none =>
    simp [AwsVolume.Resize, AwsVolume.createSnapshot, name_run m _ n hname, run_bind, logPrintf,
      deref, goPanic, hT] at hres
  | some ts =>
  rcases h1 : m.core.EC2.CreateSnapshot
    { Description := m.Instance.BaseName ++ "-" ++ n ++ "-" ++ ts,
      VolumeId := vOld.VolumeId } s.ec2 with ⟨r1, p1⟩
  rcases r1 with e1 | snap
  · simp [AwsVolume.Resize, AwsVolume.createSnapshot, AwsVolume.Delete,
      AwsVolume.createAwsVolume, AwsVolume.deleteSnapshot, AwsVolume.WaitForAvailable,
      AwsVolume.id, AwsVolume.awsVolume, name_run m _ n hname, run_bind, run_pure, getAwsVol,
      setAwsVol, invoke, logPrintf, deref, goPanic, Exec.pure, hT, hold, h1] at hres
  rcases h2 : m.core.EC2.WaitUntilSnapshotCompleted
    { SnapshotIds := [snap.SnapshotId] } p1 with ⟨r2, p2⟩
  rcases r2 with _ | e2
  swap
  · simp [AwsVolume.Resize, AwsVolume.createSnapshot, AwsVolume.Delete,
      AwsVolume.createAwsVolume, AwsVolume.deleteSnapshot, AwsVolume.WaitForAvailable,
      AwsVolume.id, AwsVolume.awsVolume, name_run m _ n hname, run_bind, run_pure, getAwsVol,
      setAwsVol, invoke, logPrintf, deref, goPanic, Exec.pure, hT, hold, h1, h2] at hres
  rcases h3 : m.core.EC2.WaitUntilVolumeAvailable
    { Filters := [ { Name := "volume-id", Values := [vOld.VolumeId] } ] } p2 with ⟨r3, p3⟩
  rcases r3 with _ | e3
  swap
  · simp [AwsVolume.Resize, AwsVolume.createSnapshot, AwsVolume.Delete,
      AwsVolume.createAwsVolume, AwsVolume.deleteSnapshot, AwsVolume.WaitForAvailable,
      AwsVolume.id, AwsVolume.awsVolume, name_run m _ n hname, run_bind, run_pure, getAwsVol,
      setAwsVol, invoke, logPrintf, deref, goPanic, Exec.pure, hT, hold, h1, h2, h3] at hres
  rcases h4 : m.core.EC2.DeleteVolume { VolumeId := vOld.VolumeId } p3 with ⟨r4, p4⟩
  rcases r4 with _ | e4
  swap
  · simp [AwsVolume.Resize, AwsVolume.createSnapshot, AwsVolume.Delete,
      AwsVolume.createAwsVolume, AwsVolume.deleteSnapshot, AwsVolume.WaitForAvailable,
      AwsVolume.id, AwsVolume.awsVolume, name_run m _ n hname, run_bind, run_pure, getAwsVol,
      setAwsVol, invoke, logPrintf, deref, goPanic, Exec.pure, hT, hold, h1, h2, h3, h4] at hres
  rcases h5 : m.core.EC2.CreateVolume
    { AvailabilityZone := m.core.AwsAZ, VolumeType := m.Blueprint.Type_,
      Size := int64 m.Blueprint.Size, SnapshotId := snap.SnapshotId } p4 with ⟨r5, p5⟩
  rcases r5 with e5 | vNew
  · simp [AwsVolume.Resize, AwsVolume.createSnapshot, AwsVolume.Delete,
      AwsVolume.createAwsVolume, AwsVolume.deleteSnapshot, AwsVolume.WaitForAvailable,
      AwsVolume.id, AwsVolume.awsVolume, name_run m _ n hname, run_bind, run_pure, getAwsVol,
      setAwsVol, invoke, logPrintf, deref, goPanic, Exec.pure, hT, hold, h1, h2, h3, h4, h5] at hres
  cases hvid : vNew.VolumeId with
  | none => simp [AwsVolume.Resize, AwsVolume.createSnapshot, AwsVolume.Delete,
      AwsVolume.createAwsVolume, AwsVolume.deleteSnapshot, AwsVolume.WaitForAvailable,
      AwsVolume.id, AwsVolume.awsVolume, name_run m _ n hname, run_bind, run_pure, getAwsVol,
      setAwsVol, invoke, logPrintf, deref, goPanic, Exec.pure, hT, hold, h1, h2, h3, h4, h5, hvid] at hres
  | some newId =>
  rcases h6 : m.core.EC2.CreateTags
    { Resources := [newId],
      Tags := [ { Key := "Name", Value := m.Instance.BaseName ++ "-" ++ n } ] } p5 with ⟨r6, p6⟩
  rcases r6 with _ | e6
  swap
  · simp [AwsVolume.Resize, AwsVolume.createSnapshot, AwsVolume.Delete,
      AwsVolume.createAwsVolume, AwsVolume.deleteSnapshot, AwsVolume.WaitForAvailable,
      AwsVolume.id, AwsVolume.awsVolume, name_run m _ n hname, run_bind, run_pure, getAwsVol,
      setAwsVol, invoke, logPrintf, deref, goPanic, Exec.pure, hT, hold, h1, h2, h3, h4, h5, hvid, h6] at hres
  rcases h7 : m.core.EC2.WaitUntilVolumeAvailable
    { Filters := [ { Name := "volume-id", Values := [some newId] } ] } p6 with ⟨r7, p7⟩
  rcases r7 with _ | e7
  swap
  · simp [AwsVolume.Resize, AwsVolume.createSnapshot, AwsVolume.Delete,
      AwsVolume.createAwsVolume, AwsVolume.deleteSnapshot, AwsVolume.WaitForAvailable,
      AwsVolume.id, AwsVolume.awsVolume, name_run m _ n hname, run_bind, run_pure, getAwsVol,
      setAwsVol, invoke, logPrintf, deref, goPanic, Exec.pure, hT, hold, h1, h2, h3, h4, h5, hvid, h6, h7] at hres
  refine ⟨ts, newId, snap, vNew, p4, by rw [h5], hvid, ?_⟩
  rcases h8 : m.core.EC2.DeleteSnapshot { SnapshotId := snap.SnapshotId } p7 with ⟨r8, p8⟩
  rcases r8 with _ | e8
  · simp [AwsVolume.Resize, AwsVolume.createSnapshot, AwsVolume.Delete,
      AwsVolume.createAwsVolume, AwsVolume.deleteSnapshot, AwsVolume.WaitForAvailable,
      AwsVolume.id, AwsVolume.awsVolume, name_run m _ n hname, run_bind, run_pure, getAwsVol,
      setAwsVol, invoke, logPrintf, deref, goPanic, Exec.pure, hT, hold, h1, h2, h3, h4, h5, hvid, h6, h7, h8] at hres
    rw [← hres]
    simp
  · cases hsid : snap.SnapshotId with
    | none =>
      rw [hsid] at h5 h8 h2
      simp [AwsVolume.Resize, AwsVolume.createSnapshot, AwsVolume.Delete,
      AwsVolume.createAwsVolume, AwsVolume.deleteSnapshot, AwsVolume.WaitForAvailable,
      AwsVolume.id, AwsVolume.awsVolume, name_run m _ n hname, run_bind, run_pure, getAwsVol,
      setAwsVol, invoke, logPrintf, deref, goPanic, Exec.pure, hT, hold, h1, h2, h3, h4, h5, hvid, h6, h7, h8, hsid] at hres
    | some sid =>
      rw [hsid] at h5 h8 h2
      simp [AwsVolume.Resize, AwsVolume.createSnapshot, AwsVolume.Delete,
      AwsVolume.createAwsVolume, AwsVolume.deleteSnapshot, AwsVolume.WaitForAvailable,
      AwsVolume.id, AwsVolume.awsVolume, name_run m _ n hname, run_bind, run_pure, getAwsVol,
      setAwsVol, invoke, logPrintf, deref, goPanic, Exec.pure, hT, hold, h1, h2, h3, h4, h5, hvid, h6, h7, h8, hsid] at hres
      rw [← hres]
      simp

theorem loadAwsVolume_calls {σ : Type} (m : AwsVolume σ) (w : Sys σ) (n : String)
    (hname : m.Blueprint.Name = some n) :
    (m.loadAwsVolume w).2.calls = w.calls ++
      [ Call.DescribeVolumes
          { Filters :=
              [ { Name := "tag:Name", Values := [some (m.Instance.BaseName ++ "-" ++ n)] },
                { Name := "status",
                  Values := [some "creating", some "available", some "in-use"] } ] } ] := by
  simp only [AwsVolume.loadAwsVolume, name_run m _ n hname, run_bind, invoke, discoveryInput]
  generalize m.core.EC2.DescribeVolumes _ _ = res
  rcases res with ⟨r, p⟩
  rcases r with err | vols
  · simp [goPanic]
  · cases vols <;> simp [run_pure, setAwsVol]

/-- C7. After a `Resize` that returned nil on a controller whose handle held a
volume `vOld`: the run issued one `CreateVolume`, which returned a record `vNew`,
and one `CreateTags`, on the id of `vNew`, whose `Name` value is
`BaseName + "-" + Blueprint.Name`, the value of `name()` and the string that
discovery puts in its `tag:Name` filter; the handle holds `vNew`, `id()` returns
the id of `vNew`, and so not the old id when the two ids differ. -/
theorem resize_keeps_identity {σ : Type} (m : AwsVolume σ) (s s1 : Sys σ) (vOld : Volume)
    (n : String) (hname : m.Blueprint.Name = some n) (hold : s.awsVol = some vOld)
    (hres : m.Resize s = (Outcome.ret none, s1)) :
    ∃ (vNew : Volume) (newId : String) (ci : CreateVolumeInput) (p : σ),
      (m.core.EC2.CreateVolume ci p).1 = Except.ok vNew ∧
      vNew.VolumeId = some newId ∧
      (∀ c ∈ s1.calls.drop s.calls.length, c.op = Op.CreateVolume → c = Call.CreateVolume ci) ∧
      Call.CreateVolume ci ∈ s1.calls.drop s.calls.length ∧
      (∀ c ∈ s1.calls.drop s.calls.length, c.op = Op.CreateTags →
        c = Call.CreateTags
          { Resources := [newId],
            Tags := [ { Key := "Name", Value := m.Instance.BaseName ++ "-" ++ n } ] }) ∧
      Call.CreateTags
          { Resources := [newId],
            Tags := [ { Key := "Name", Value := m.Instance.BaseName ++ "-" ++ n } ] }
        ∈ s1.calls.drop s.calls.length ∧
      m.name s1 = (Outcome.ret (m.Instance.BaseName ++ "-" ++ n), s1) ∧
      (∀ w : Sys σ, (m.loadAwsVolume w).2.calls = w.calls ++
        [ Call.DescribeVolumes
            { Filters :=
                [ { Name := "tag:Name", Values := [some (m.Instance.BaseName ++ "-" ++ n)] },
                  { Name := "status",
                    Values := [some "creating", some "available", some "in-use"] } ] } ]) ∧
      s1.awsVol = some vNew ∧
      m.id s1 = (Outcome.ret vNew.VolumeId, s1) ∧
      (vNew.VolumeId ≠ vOld.VolumeId → (m.id s1).1 ≠ Outcome.ret vOld.VolumeId) := by
  obtain ⟨ts, newId, snap, vNew, p4, hcv, hvid, hvol, hcalls⟩ :=
    resize_success_inv m s s1 vOld n hname hold hres
  have hid := id_cached m s1 vNew hvol
  refine ⟨vNew, newId, _, p4, hcv, hvid, ?_, ?_, ?_, ?_, name_run m s1 n hname,
    fun w => loadAwsVolume_calls m w n hname, hvol, hid, ?_⟩
  · intro c hc hop
    rw [hcalls] at hc
    simp at hc
    rcases hc with h | h | h | h | h | h | h | h <;> subst h <;> simp [Call.op] at hop ⊢
  · rw [hcalls]
    simp
  · intro c hc hop
    rw [hcalls] at hc
    simp at hc
    rcases hc with h | h | h | h | h | h | h | h <;> subst h <;> simp [Call.op] at hop ⊢
  · rw [hcalls]
    simp
  · intro hne h
    rw [hid] at h
    simp only [Outcome.ret.injEq] at h
    exact hne h

/-- C7, at a concrete input: the handle holds `vol-old`, the provider creates `vol-new`. -/
theorem resize_keeps_identity_witness :
    ∃ (vNew : Volume) (newId : String) (ci : CreateVolumeInput) (p : Unit),
      ((demo foundEC2 20).core.EC2.CreateVolume ci p).1 = Except.ok vNew ∧
      vNew.VolumeId = some newId ∧
      (∀ c ∈ ((demo foundEC2 20).Resize sysOld).2.calls.drop sysOld.calls.length,
        c.op = Op.CreateVolume → c = Call.CreateVolume ci) ∧
      Call.CreateVolume ci ∈ ((demo foundEC2 20).Resize sysOld).2.calls.drop sysOld.calls.length ∧
      (∀ c ∈ ((demo foundEC2 20).Resize sysOld).2.calls.drop sysOld.calls.length,
        c.op = Op.CreateTags →
        c = Call.CreateTags
          { Resources := [newId],
            Tags := [ { Key := "Name", Value := "node1" ++ "-" ++ "data" } ] }) ∧
      Call.CreateTags
          { Resources := [newId],
            Tags := [ { Key := "Name", Value := "node1" ++ "-" ++ "data" } ] }
        ∈ ((demo foundEC2 20).Resize sysOld).2.calls.drop sysOld.calls.length ∧
      (demo foundEC2 20).name ((demo foundEC2 20).Resize sysOld).2 =
        (Outcome.ret ("node1" ++ "-" ++ "data"), ((demo foundEC2 20).Resize sysOld).2) ∧
      (∀ w : Sys Unit, ((demo foundEC2 20).loadAwsVolume w).2.calls = w.calls ++
        [ Call.DescribeVolumes
            { Filters :=
                [ { Name := "tag:Name", Values := [some ("node1" ++ "-" ++ "data")] },
                  { Name := "status",
                    Values := [some "creating", some "available", some "in-use"] } ] } ]) ∧
      ((demo foundEC2 20).Resize sysOld).2.awsVol = some vNew ∧
      (demo foundEC2 20).id ((demo foundEC2 20).Resize sysOld).2 =
        (Outcome.ret vNew.VolumeId, ((demo foundEC2 20).Resize sysOld).2) ∧
      (vNew.VolumeId ≠ volOld.VolumeId →
        ((demo foundEC2 20).id ((demo foundEC2 20).Resize sysOld).2).1 ≠
          Outcome.ret volOld.VolumeId) :=
  resize_keeps_identity (demo foundEC2 20) sysOld _ volOld "data" rfl rfl rfl

end Supergiant
